import Mathlib

/-!
Verification development for the openclaw-polymarket-bot repository.

Shallow embedding conventions:
* JavaScript/TypeScript numbers are modelled as exact rationals (`ℚ`) in the
  signal engines and bot controller, whose arithmetic is rational, and as real
  numbers (`ℝ`) in the Black-Scholes / volatility code, which uses `exp`,
  `log` and `sqrt`.  Decimal literals denote the exact decimal value.
* `Date.now()` is modelled as an explicit `nowMs : ℤ` input; `Math.floor` on
  integer division is `Int.fdiv`.
* JavaScript `NaN` arising from `?? NaN` on missing last elements of lists is
  modelled with `Option ℚ` (`none` = NaN); comparisons against it are `false`,
  matching NaN comparison semantics.
* The human-readable `reasons` strings are modelled as a tagged inductive
  carrying the interpolated numeric values, since string formatting itself is
  irrelevant to every claim.
-/

inductive Direction where
  | up
  | down
deriving DecidableEq, Repr

inductive StrategyV5 where
  | latencyArb
  | technical
deriving DecidableEq, Repr

/-- Reason entries, one constructor per `reasons.push(...)` site in the
signal engines (v5 in src/src/signal-engine.ts, v7 ibid., v8 in
src/dist/signal-engine.js), carrying the numbers the source interpolates. -/
inductive Reason (α : Type) where
  | windowDelta (delta pct : α)
  | latencyArbV5 (absDelta timeInWindow : α)
  | tokenVsFair (token fair edge timeWeight : α)
  | alreadyPricedV5 (absDelta token : α)
  | edgeTooSmallV5 (absDelta edge : α)
  | kdLine (k d rsi : Option α)
  | momLine (mom3 mom5 : α) (trendUp : Bool)
  | exhaustionLow
  | exhaustionHigh
  | oversoldExhausted
  | oversoldDecelVeto
  | oversoldCrossUp
  | rsiConfirmsOversold
  | momAccelUp
  | oversoldDowntrend
  | overboughtExhausted
  | overboughtDecelVeto
  | overboughtCrossDown
  | rsiConfirmsOverbought
  | momAccelDown
  | overboughtUptrend
  | neutralZone
  | headerV7 (price delta pct timeInWindow : α)
  | moveTooSmall (needPct needAbs gotPct gotAbs : α)
  | marketLine (upPrice downPrice : α)
  | fairLineV7 (fair timeWeight token edge : α)
  | bsFairLine (fair d2 timeRemaining token edge : α)
  | alreadyPriced (token maxToken : α)
  | marketDisagrees (token : α)
  | deltaOverride (absDelta : α)
  | edgeTooSmall (edge minEdgeCents : α)
  | arbFired (dir : Direction) (absDelta token : α)
  | kellyLine (kellyFull kellyFraction bet : α)
deriving DecidableEq

/-- Price delta record built by the signal engines. -/
structure PriceDelta (α : Type) where
  absolute : α
  percent : α
  windowOpenPrice : α
  currentPrice : α
deriving DecidableEq

/-- Market price snapshot record built by the v7/v8 signal engines. -/
structure MarketPrices (α : Type) where
  upPrice : α
  downPrice : α
  impliedProb : α
deriving DecidableEq

/-! ## Indicators (src/dist/indicators.js) -/

/-- RSI value from smoothed average gain/loss: the
`avgLoss === 0 ? 100 : 100 - 100 / (1 + avgGain / avgLoss)` expression. -/
def rsiVal (avgGain avgLoss : ℚ) : ℚ :=
  if avgLoss = 0 then 100 else 100 - 100 / (1 + avgGain / avgLoss)

/-- The Wilder-smoothing loop of `calcRSI` (indicators.js loop over
`i = period + 1 .. closes.length - 1`), fed the remaining diffs. -/
def rsiLoop (period : ℚ) : ℚ → ℚ → List ℚ → List ℚ
  | _, _, [] => []
  | g, l, d :: ds =>
    let g' := (g * (period - 1) + (if d > 0 then d else 0)) / period
    let l' := (l * (period - 1) + (if d < 0 then |d| else 0)) / period
    rsiVal g' l' :: rsiLoop period g' l' ds

/-- Function `calcRSI(closes, period)` from indicators.js. -/
def calcRSI (closes : List ℚ) (period : ℕ) : List ℚ :=
  if closes.length < period + 1 then []
  else
    let diffs := List.zipWith (fun next prev => next - prev) (closes.drop 1) closes
    let head := diffs.take period
    let avgGain := (head.map fun d => if d > 0 then d else 0).sum / (period : ℚ)
    let avgLoss := (head.map fun d => if d > 0 then 0 else |d|).sum / (period : ℚ)
    rsiVal avgGain avgLoss :: rsiLoop (period : ℚ) avgGain avgLoss (diffs.drop period)

/-- Function `sma(arr, period)` from indicators.js: sliding-window mean.  The source is
only ever called with `period ≥ 1`; `period = 0` is mapped to `[]`. -/
def sma : List ℚ → ℕ → List ℚ
  | [], _ => []
  | a :: rest, period =>
    if period = 0 ∨ (a :: rest).length < period then []
    else ((a :: rest).take period).sum / (period : ℚ) :: sma rest period

/-- Model of `Math.min(...window)` for the nonempty windows of `calcStochRSI`. -/
def listMin : List ℚ → ℚ
  | [] => 0
  | a :: rest => rest.foldl min a

/-- Model of `Math.max(...window)` for the nonempty windows of `calcStochRSI`. -/
def listMax : List ℚ → ℚ
  | [] => 0
  | a :: rest => rest.foldl max a

/-- One raw stochastic value: `max === min ? 50 : (last - min)/(max - min)*100`
(the window ends at index `i`, so `rsiValues[i]` is its last element). -/
def rawKWindow (w : List ℚ) : ℚ :=
  let mn := listMin w
  let mx := listMax w
  if mx = mn then 50 else (w.getLast?.getD 0 - mn) / (mx - mn) * 100

/-- The raw-K sliding loop of `calcStochRSI` over windows of `stochPeriod`. -/
def rawKList : List ℚ → ℕ → List ℚ
  | [], _ => []
  | a :: rest, sp =>
    if sp = 0 ∨ (a :: rest).length < sp then []
    else rawKWindow ((a :: rest).take sp) :: rawKList rest sp

/-- Result record of `calcStochRSI`; `lastK`/`lastD`/`lastRSI` are `none`
where the source yields `NaN`/`undefined` (`?? NaN`, missing field). -/
structure StochRSIResult where
  k : List ℚ
  d : List ℚ
  lastK : Option ℚ
  lastD : Option ℚ
  lastRSI : Option ℚ
  rsi : List ℚ
deriving DecidableEq

/-- Function `calcStochRSI(closes, rsiPeriod, stochPeriod, kSmooth, dSmooth)` from
indicators.js. -/
def calcStochRSI (closes : List ℚ) (rsiPeriod stochPeriod kSmooth dSmooth : ℕ) :
    StochRSIResult :=
  let rsiValues := calcRSI closes rsiPeriod
  if rsiValues.length < stochPeriod then
    { k := [], d := [], lastK := none, lastD := none, lastRSI := none, rsi := rsiValues }
  else
    let rawK := rawKList rsiValues stochPeriod
    let k := sma rawK kSmooth
    let d := sma k dSmooth
    { k := k, d := d, lastK := k.getLast?, lastD := d.getLast?,
      lastRSI := rsiValues.getLast?, rsi := rsiValues }

/-- JS comparison `a < b` where `a` may be NaN (`none`): NaN compares false. -/
def nLt (a : Option ℚ) (b : ℚ) : Bool :=
  match a with
  | some x => decide (x < b)
  | none => false

/-- JS comparison `a > b` where `a` may be NaN (`none`): NaN compares false. -/
def nGt (a : Option ℚ) (b : ℚ) : Bool :=
  match a with
  | some x => decide (x > b)
  | none => false

/-- JS comparison `a > b` where either side may be NaN. -/
def nGtO (a b : Option ℚ) : Bool :=
  match a, b with
  | some x, some y => decide (x > y)
  | _, _ => false

/-- JS comparison `a < b` where either side may be NaN. -/
def nLtO (a b : Option ℚ) : Bool :=
  match a, b with
  | some x, some y => decide (x < y)
  | _, _ => false

/-- Model of `Math.abs`, written out as the source's branch on the sign so that
concrete runs evaluate by `simp`/`norm_num` (Batteries' `Rat` arithmetic is
irreducible, and `|.|` is definitionally opaque to evaluation). -/
def jsAbs (q : ℚ) : ℚ :=
  if q < 0 then -q else q


/-! ## Signal Engine v5 (src/src/signal-engine.ts, first file) -/

structure SignalConfigV5 where
  oversoldThreshold : ℚ
  overboughtThreshold : ℚ
  extremeOversold : ℚ
  extremeOverbought : ℚ
  minConfidence : ℚ
  maxPrice : ℚ
  dryRun : Bool
  positionSize : ℚ
  minPriceDeltaPercent : ℚ
  minPriceDeltaAbsolute : ℚ
  arbMinConfidence : ℚ
  cooldownWindows : ℕ
deriving DecidableEq

def DEFAULT_CONFIG_V5 : SignalConfigV5 :=
  { oversoldThreshold := 25, overboughtThreshold := 75, extremeOversold := 10,
    extremeOverbought := 90, minConfidence := 0.75, maxPrice := 0.65,
    dryRun := false, positionSize := 25, minPriceDeltaPercent := 0.08,
    minPriceDeltaAbsolute := 40, arbMinConfidence := 0.7, cooldownWindows := 2 }

/-- Momentum record of the v5 signal. -/
structure MomentumInfo where
  mom3 : ℚ
  mom5 : ℚ
  mom10 : ℚ
  accel : ℚ
  trendUp : Bool
  ema20 : ℚ
deriving DecidableEq

structure SignalV5 where
  direction : Option Direction
  strategy : Option StrategyV5
  confidence : ℚ
  reasons : List (Reason ℚ)
  stochRSI : Option ℚ × Option ℚ × Option ℚ
  momentum : MomentumInfo
  priceDelta : Option (PriceDelta ℚ)
  timestamp : ℤ
deriving DecidableEq

/-- Momentum over the last `n` closes:
`closes.length > n ? (last - closes[len-1-n]) / closes[len-1-n] * 100 : 0`. -/
def momOver (closes : List ℚ) (n : ℕ) : ℚ :=
  if closes.length > n then
    let base := closes.getD (closes.length - 1 - n) 0
    (closes.getLast?.getD 0 - base) / base * 100
  else 0

/-- EMA20 of v5/v7: seed with the mean of the first 20 closes, then fold the
standard 2/21 smoothing over the rest. -/
def ema20Of (closes : List ℚ) : ℚ :=
  (closes.drop 20).foldl (fun e c => (c - e) * 2 / 21 + e) ((closes.take 20).sum / 20)

/-- Strategy 1 of v5 `generateSignal` (latency arbitrage), returning
(direction, strategy, confidence, reasons, priceDelta).  The source's
truthiness test `windowOpenPrice && currentPrice && up !== null &&
down !== null` is the outer match plus the two `≠ 0` tests. -/
def v5ArbStage (windowOpenPrice : Option ℚ) (currentPrice : ℚ)
    (marketUpPrice marketDownPrice : Option ℚ) (config : SignalConfigV5)
    (nowMs : ℤ) :
    Option Direction × Option StrategyV5 × ℚ × List (Reason ℚ) ×
      Option (PriceDelta ℚ) :=
  match windowOpenPrice, marketUpPrice, marketDownPrice with
  | some wop, some mUp, some mDown =>
    if wop ≠ 0 ∧ currentPrice ≠ 0 then
      let delta := currentPrice - wop
      let deltaPct := delta / wop * 100
      let pd : PriceDelta ℚ :=
        { absolute := delta, percent := deltaPct, windowOpenPrice := wop,
          currentPrice := currentPrice }
      let r0 : List (Reason ℚ) := [Reason.windowDelta delta deltaPct]
      let absDelta := jsAbs delta
      let absDeltaPct := jsAbs deltaPct
      let now := nowMs.fdiv 1000
      let windowStart := now.fdiv 300 * 300
      let timeInWindow := now - windowStart
      let timeWeight := max 0.5 ((timeInWindow : ℚ) / 300)
      if absDeltaPct ≥ config.minPriceDeltaPercent ∧
          absDelta ≥ config.minPriceDeltaAbsolute then
        let arbDirection := if delta > 0 then Direction.up else Direction.down
        let rawFair := 0.50 + absDeltaPct * 2 * timeWeight
        let expectedFairPrice := min rawFair 0.85
        let currentTokenPrice := if arbDirection = Direction.up then mUp else mDown
        let edge := expectedFairPrice - currentTokenPrice
        let marketAlreadyPriced := currentTokenPrice ≥ 0.55
        if edge > 0.10 ∧ ¬marketAlreadyPriced then
          (some arbDirection, some StrategyV5.latencyArb,
            min 0.9 (config.arbMinConfidence + edge * 0.5),
            r0 ++ [Reason.latencyArbV5 absDelta (timeInWindow : ℚ),
              Reason.tokenVsFair currentTokenPrice expectedFairPrice edge timeWeight],
            some pd)
        else if marketAlreadyPriced then
          (none, none, 0, r0 ++ [Reason.alreadyPricedV5 absDelta currentTokenPrice],
            some pd)
        else
          (none, none, 0, r0 ++ [Reason.edgeTooSmallV5 absDelta edge], some pd)
      else (none, none, 0, r0, some pd)
    else (none, none, 0, [], none)
  | _, _, _ => (none, none, 0, [], none)

/-- Strategy 2 of v5 `generateSignal` (technical, StochRSI-based), run only
when the arb stage produced no direction. -/
def v5TechStage (s : StochRSIResult) (mom3 mom5 momAccel : ℚ) (trendUp : Bool)
    (config : SignalConfigV5) :
    Option Direction × Option StrategyV5 × ℚ × List (Reason ℚ) :=
  let r1 : List (Reason ℚ) :=
    [Reason.kdLine s.lastK s.lastD s.lastRSI, Reason.momLine mom3 mom5 trendUp]
  let kExhaustedLow : Bool := nLt s.lastK 15 && decide (mom3 > mom5)
  let kExhaustedHigh : Bool := nGt s.lastK 85 && decide (mom3 < mom5)
  let warns : List (Reason ℚ) :=
    (if kExhaustedLow then [Reason.exhaustionLow] else []) ++
      (if kExhaustedHigh then [Reason.exhaustionHigh] else [])
  let upDecelVeto : Bool := decide (momAccel < -0.02)
  let downDecelVeto : Bool := decide (momAccel > 0.02)
  let branch : Option Direction × Option StrategyV5 × ℚ × List (Reason ℚ) :=
    if nLt s.lastK config.oversoldThreshold && nGtO s.lastK s.lastD then
      if kExhaustedLow then (none, none, 0, [Reason.oversoldExhausted])
      else if upDecelVeto then (none, none, 0, [Reason.oversoldDecelVeto])
      else if trendUp && decide (mom5 > -0.05) then
        let c1 : ℚ × List (Reason ℚ) :=
          if nLt s.lastRSI 30 then (0.65 + 0.1, [Reason.rsiConfirmsOversold])
          else (0.65, [])
        let c2 : ℚ × List (Reason ℚ) :=
          if momAccel > 0.01 then (c1.1 + 0.1, c1.2 ++ [Reason.momAccelUp])
          else c1
        (some Direction.up, some StrategyV5.technical, c2.1,
          Reason.oversoldCrossUp :: c2.2)
      else (none, none, 0, [Reason.oversoldDowntrend])
    else if nGt s.lastK config.overboughtThreshold && nLtO s.lastK s.lastD then
      if kExhaustedHigh then (none, none, 0, [Reason.overboughtExhausted])
      else if downDecelVeto then (none, none, 0, [Reason.overboughtDecelVeto])
      else if !trendUp && decide (mom5 < 0.05) then
        let c1 : ℚ × List (Reason ℚ) :=
          if nGt s.lastRSI 70 then (0.65 + 0.1, [Reason.rsiConfirmsOverbought])
          else (0.65, [])
        let c2 : ℚ × List (Reason ℚ) :=
          if momAccel < -0.01 then (c1.1 + 0.1, c1.2 ++ [Reason.momAccelDown])
          else c1
        (some Direction.down, some StrategyV5.technical, c2.1,
          Reason.overboughtCrossDown :: c2.2)
      else (none, none, 0, [Reason.overboughtUptrend])
    else (none, none, 0, [Reason.neutralZone])
  (branch.1, branch.2.1, branch.2.2.1, r1 ++ warns ++ branch.2.2.2)

/-- Function `generateSignal` of signal-engine v5 (dual strategy).  `Date.now()` is
the explicit `nowMs` input. -/
def generateSignalV5 (closes : List ℚ) (windowOpenPrice : Option ℚ)
    (currentPrice : ℚ) (marketUpPrice marketDownPrice : Option ℚ)
    (config : SignalConfigV5) (nowMs : ℤ) : SignalV5 :=
  let s := calcStochRSI closes 14 14 3 3
  let mom3 := momOver closes 3
  let mom5 := momOver closes 5
  let mom10 := momOver closes 10
  let momAccel := mom3 - mom5
  let ema20 := ema20Of closes
  let trendUp : Bool :=
    match closes.getLast? with
    | some c => decide (c > ema20)
    | none => false
  let momentum : MomentumInfo :=
    { mom3 := mom3, mom5 := mom5, mom10 := mom10, accel := momAccel,
      trendUp := trendUp, ema20 := ema20 }
  let arb := v5ArbStage windowOpenPrice currentPrice marketUpPrice marketDownPrice
    config nowMs
  let merged : Option Direction × Option StrategyV5 × ℚ × List (Reason ℚ) :=
    match arb.1 with
    | some _ => (arb.1, arb.2.1, arb.2.2.1, arb.2.2.2.1)
    | none =>
      let tech := v5TechStage s mom3 mom5 momAccel trendUp config
      (tech.1, tech.2.1, tech.2.2.1, arb.2.2.2.1 ++ tech.2.2.2)
  let confidence := max 0 (min 1 merged.2.2.1)
  { direction := if confidence ≥ config.minConfidence then merged.1 else none,
    strategy := if confidence ≥ config.minConfidence then merged.2.1 else none,
    confidence := confidence,
    reasons := merged.2.2.2,
    stochRSI := (s.lastK, s.lastD, s.lastRSI),
    momentum := momentum,
    priceDelta := arb.2.2.2.2,
    timestamp := nowMs }

/-! ## Signal Engine v7 (src/src/signal-engine.ts, second file): pure latency
arbitrage over rational arithmetic. -/

/-- Config of signal-engine v7.  The fields after `cooldownMs` are the v8
extensions that bot.ts reads with `??` defaults (absent in the v7 default
config), hence `Option ℚ`. -/
structure SignalConfigV7 where
  minDeltaPercent : ℚ
  minDeltaAbsolute : ℚ
  minEdgeCents : ℚ
  maxTokenPrice : ℚ
  fairValueBase : ℚ
  fairValueMultiplier : ℚ
  fairValueCap : ℚ
  maxPrice : ℚ
  positionSize : ℚ
  dryRun : Bool
  cooldownMs : ℚ
  bankroll : Option ℚ
  kellyFraction : Option ℚ
  minPositionSize : Option ℚ
  compoundFraction : Option ℚ
  maxPositionSize : Option ℚ
  pnlFloor : Option ℚ
deriving DecidableEq

def DEFAULT_CONFIG_V7 : SignalConfigV7 :=
  { minDeltaPercent := 0.06, minDeltaAbsolute := 40, minEdgeCents := 8,
    maxTokenPrice := 0.55, fairValueBase := 0.50, fairValueMultiplier := 2.5,
    fairValueCap := 0.80, maxPrice := 0.65, positionSize := 25, dryRun := false,
    cooldownMs := 90000, bankroll := none, kellyFraction := none,
    minPositionSize := none, compoundFraction := none, maxPositionSize := none,
    pnlFloor := none }

structure SignalV7 where
  direction : Option Direction
  confidence : ℚ
  reasons : List (Reason ℚ)
  priceDelta : PriceDelta ℚ
  marketPrices : MarketPrices ℚ
  timeInWindow : ℚ
  timestamp : ℤ
deriving DecidableEq

/-- Value `delta = currentPrice - windowOpenPrice` (v7). -/
def v7delta (windowOpenPrice currentPrice : ℚ) : ℚ :=
  currentPrice - windowOpenPrice

/-- Value `deltaPct = (delta / windowOpenPrice) * 100` (v7). -/
def v7deltaPct (windowOpenPrice currentPrice : ℚ) : ℚ :=
  v7delta windowOpenPrice currentPrice / windowOpenPrice * 100

/-- Value `timeScale = 1 + (1 - timeInWindow / 240)` (v7/v8): 2.0 at 0s, 1.0 at
240s. -/
def timeScaleOf (timeInWindow : ℚ) : ℚ :=
  1 + (1 - timeInWindow / 240)

/-- The v7/v8 minimum-move rejection condition
`absDeltaPct < scaledMinPct || absDelta < scaledMinAbs`. -/
def v7moveFails (config : SignalConfigV7) (windowOpenPrice currentPrice timeInWindow : ℚ) :
    Prop :=
  jsAbs (v7deltaPct windowOpenPrice currentPrice) <
      config.minDeltaPercent * timeScaleOf timeInWindow ∨
    jsAbs (v7delta windowOpenPrice currentPrice) <
      config.minDeltaAbsolute * timeScaleOf timeInWindow

instance (config : SignalConfigV7) (wop cp t : ℚ) :
    Decidable (v7moveFails config wop cp t) := by
  unfold v7moveFails; infer_instance

/-- Value `timeWeight = 0.5 + (timeInWindow / 300) * 0.5` (v7). -/
def timeWeightOf (timeInWindow : ℚ) : ℚ :=
  0.5 + timeInWindow / 300 * 0.5

/-- v7's linear fair value `min(base + absDeltaPct * multiplier * timeWeight, cap)`. -/
def v7fairValue (config : SignalConfigV7) (windowOpenPrice currentPrice timeInWindow : ℚ) :
    ℚ :=
  min (config.fairValueBase +
      jsAbs (v7deltaPct windowOpenPrice currentPrice) * config.fairValueMultiplier *
        timeWeightOf timeInWindow)
    config.fairValueCap

/-- Value `arbDirection = delta > 0 ? "UP" : "DOWN"` (v7/v8). -/
def arbDirectionOf (delta : ℚ) : Direction :=
  if delta > 0 then Direction.up else Direction.down

/-- Venue token price for the candidate direction (v7/v8). -/
def v7tokenPrice (windowOpenPrice currentPrice marketUpPrice marketDownPrice : ℚ) : ℚ :=
  if arbDirectionOf (v7delta windowOpenPrice currentPrice) = Direction.up
  then marketUpPrice else marketDownPrice

/-- Value `edge = fairValue - tokenPrice` (v7). -/
def v7edge (config : SignalConfigV7)
    (windowOpenPrice currentPrice marketUpPrice marketDownPrice timeInWindow : ℚ) : ℚ :=
  v7fairValue config windowOpenPrice currentPrice timeInWindow -
    v7tokenPrice windowOpenPrice currentPrice marketUpPrice marketDownPrice

/-- Lines 326-362 of v7 `generateSignal` (after the minimum-move
filter passed): time weighting, linear fair value, priced-in filter, edge
filter, and the success return. -/
def v7AfterMinMove (config : SignalConfigV7)
    (windowOpenPrice currentPrice marketUpPrice marketDownPrice timeInWindow : ℚ)
    (nowMs : ℤ) : SignalV7 :=
  let delta := v7delta windowOpenPrice currentPrice
  let deltaPct := v7deltaPct windowOpenPrice currentPrice
  let pd : PriceDelta ℚ :=
    { absolute := delta, percent := deltaPct, windowOpenPrice := windowOpenPrice,
      currentPrice := currentPrice }
  let fairValue := v7fairValue config windowOpenPrice currentPrice timeInWindow
  let tokenPrice := v7tokenPrice windowOpenPrice currentPrice marketUpPrice marketDownPrice
  let mp : MarketPrices ℚ :=
    { upPrice := marketUpPrice, downPrice := marketDownPrice, impliedProb := tokenPrice }
  let edge := v7edge config windowOpenPrice currentPrice marketUpPrice marketDownPrice
    timeInWindow
  let r1 : List (Reason ℚ) :=
    [Reason.headerV7 currentPrice delta deltaPct timeInWindow,
      Reason.marketLine marketUpPrice marketDownPrice,
      Reason.fairLineV7 fairValue (timeWeightOf timeInWindow) tokenPrice edge]
  if tokenPrice ≥ config.maxTokenPrice then
    { direction := none, confidence := 0,
      reasons := r1 ++ [Reason.alreadyPriced tokenPrice config.maxTokenPrice],
      priceDelta := pd, marketPrices := mp, timeInWindow := timeInWindow,
      timestamp := nowMs }
  else if edge < config.minEdgeCents / 100 then
    { direction := none, confidence := 0,
      reasons := r1 ++ [Reason.edgeTooSmall edge config.minEdgeCents],
      priceDelta := pd, marketPrices := mp, timeInWindow := timeInWindow,
      timestamp := nowMs }
  else
    { direction := some (arbDirectionOf delta),
      confidence := min 0.95 (0.6 + edge),
      reasons := r1 ++ [Reason.arbFired (arbDirectionOf delta) (jsAbs delta) tokenPrice],
      priceDelta := pd, marketPrices := mp, timeInWindow := timeInWindow,
      timestamp := nowMs }

/-- Function `generateSignal` of signal-engine v7 (pure latency arbitrage). -/
def generateSignalV7 (config : SignalConfigV7)
    (windowOpenPrice currentPrice marketUpPrice marketDownPrice timeInWindow : ℚ)
    (nowMs : ℤ) : SignalV7 :=
  let delta := v7delta windowOpenPrice currentPrice
  let deltaPct := v7deltaPct windowOpenPrice currentPrice
  let pd : PriceDelta ℚ :=
    { absolute := delta, percent := deltaPct, windowOpenPrice := windowOpenPrice,
      currentPrice := currentPrice }
  if v7moveFails config windowOpenPrice currentPrice timeInWindow then
    { direction := none, confidence := 0,
      reasons := [Reason.headerV7 currentPrice delta deltaPct timeInWindow,
        Reason.moveTooSmall (config.minDeltaPercent * timeScaleOf timeInWindow)
          (config.minDeltaAbsolute * timeScaleOf timeInWindow) (jsAbs deltaPct)
          (jsAbs delta)],
      priceDelta := pd,
      marketPrices :=
        { upPrice := marketUpPrice, downPrice := marketDownPrice, impliedProb := 0 },
      timeInWindow := timeInWindow, timestamp := nowMs }
  else
    v7AfterMinMove config windowOpenPrice currentPrice marketUpPrice marketDownPrice
      timeInWindow nowMs

/-! ## Bot controller (src/src/bot.ts): state, `onTick`, pause/resume.

The controller is single-threaded and event driven; the transient `checking`
reentrancy flag only drops ticks that arrive while an evaluation is in
flight, so one `onTick` call is modelled as one atomic step.  External
collaborators are explicit inputs: the current market quote
(`Option MarketInfo`, `none` when `findCurrentMarket` yields nothing) and the
wall clock `nowMs`.  Order placement is out of scope (a placed trade is the
step's output); `settleTrades` inside `onTick` is unreachable work, because
the `hasPending` gate has already returned when any trade is pending. -/

inductive TradeResult where
  | win
  | loss
  | pending
  | dryRun
deriving DecidableEq, Repr

/-- The numeric fields of bot.ts's `Trade` record (market slug and order id
strings omitted). -/
structure Trade where
  timestamp : ℤ
  windowStart : ℤ
  direction : Direction
  price : ℚ
  size : ℤ
  cost : ℚ
  confidence : ℚ
  result : TradeResult
  pnl : ℚ
  btcAtEntry : ℚ
  btcWindowOpen : ℚ
  deltaAtEntry : ℚ
  timeInWindow : ℤ
  tokenPriceAtEntry : ℚ
  fairValueAtEntry : ℚ
deriving DecidableEq

/-- Market info used by `onTick` (from `findCurrentMarket`). -/
structure MarketInfo where
  upPrice : ℚ
  downPrice : ℚ
deriving DecidableEq

/-- Bot state: the persisted `BotState` fields plus the module-level
mutable variables of bot.ts. -/
structure BotState where
  config : SignalConfigV7
  trades : List Trade
  totalPnL : ℚ
  wins : ℕ
  losses : ℕ
  winStreak : ℕ
  skips : ℕ
  paused : Bool
  lastTradeTime : ℤ
  windowOpenPrices : List (ℤ × ℚ)
  tradedWindows : List ℤ
  lastSignal : Option SignalV7
  tickCount : ℕ
  checkCount : ℕ
deriving DecidableEq

/-- One price tick with its wall-clock time and the market lookup's result. -/
structure TickInput where
  price : ℚ
  nowMs : ℤ
  market : Option MarketInfo
deriving DecidableEq

/-- Association-list lookup for the `windowOpenPrices` map. -/
def wopLookup (m : List (ℤ × ℚ)) (k : ℤ) : Option ℚ :=
  match m.find? (fun e => e.1 = k) with
  | some e => some e.2
  | none => none

/-- Value `timeInWindow` as bot.ts computes it from the wall clock:
`now - floor(now / 300) * 300` with `now = floor(nowMs / 1000)`. -/
def timeInWindowOf (nowMs : ℤ) : ℤ :=
  nowMs.fdiv 1000 - (nowMs.fdiv 1000).fdiv 300 * 300

/-- Model of `parseFloat(x.toFixed(2))`: round to two decimals. -/
def round2 (q : ℚ) : ℚ :=
  (round (q * 100) : ℤ) / 100

/-- The evaluation stage of `onTick` (bot.ts lines 252-369), entered once
every gate has passed: the market lookup's result, signal generation, the
circuit breaker, Kelly sizing and the trade record. -/
def onTickEval (st : BotState) (inp : TickInput) (windowOpenPrice : ℚ)
    (currentWindowStart timeInWindow : ℤ) : BotState × Option Trade :=
  let st := { st with checkCount := st.checkCount + 1 }
  match inp.market with
  | none => (st, none)
  | some market =>
    let signal := generateSignalV7 st.config windowOpenPrice inp.price
      market.upPrice market.downPrice (timeInWindow : ℚ) inp.nowMs
    let st := { st with lastSignal := some signal }
    match signal.direction with
    | none => ({ st with skips := st.skips + 1 }, none)
    | some dir =>
      -- circuit breaker: pause if P&L at or below floor
      let pnlFloor := st.config.pnlFloor.getD (-100)
      if st.totalPnL ≤ pnlFloor then ({ st with paused := true }, none)
      else
        let tokenPrice := if dir = Direction.up then market.upPrice
          else market.downPrice
        let bidPrice := min (round2 (tokenPrice + 0.02)) st.config.maxPrice
        let baseSize := st.config.positionSize
        let maxPositionSize := st.config.maxPositionSize.getD 10000
        let kellyFraction := st.config.kellyFraction.getD 0.25
        let bankroll := st.config.bankroll.getD 500
        let effectiveBankroll := max (bankroll + st.totalPnL) baseSize
        let winRate := (st.wins : ℚ) / (max (st.wins + st.losses) 1 : ℕ)
        let kellyOptimal := max ((winRate * 0.7 - (1 - winRate)) / 0.7) 0
        let tradeSize :=
          min (max (effectiveBankroll * kellyOptimal * kellyFraction) baseSize)
            maxPositionSize
        let size : ℤ := ⌊tradeSize / bidPrice⌋
        if size < 1 then (st, none)
        else
          let cost := (size : ℚ) * bidPrice
          let fairValue :=
            min (st.config.fairValueBase +
                jsAbs signal.priceDelta.percent * st.config.fairValueMultiplier *
                  (0.5 + (timeInWindow : ℚ) / 600))
              st.config.fairValueCap
          let trade : Trade :=
            { timestamp := inp.nowMs, windowStart := currentWindowStart,
              direction := dir, price := bidPrice, size := size, cost := cost,
              confidence := signal.confidence,
              result := if st.config.dryRun then TradeResult.dryRun
                else TradeResult.pending,
              pnl := 0, btcAtEntry := inp.price, btcWindowOpen := windowOpenPrice,
              deltaAtEntry := inp.price - windowOpenPrice,
              timeInWindow := timeInWindow, tokenPriceAtEntry := tokenPrice,
              fairValueAtEntry := fairValue }
          let trades := st.trades ++ [trade]
          let trades := if trades.length > 200 then trades.drop 1 else trades
          ({ st with
              trades := trades,
              tradedWindows := currentWindowStart :: st.tradedWindows,
              lastTradeTime := inp.nowMs }, some trade)

/-- Function `onTick(price)` from bot.ts as one state-transition step, returning the
new state and the trade placed (if any): the gate chain, then `onTickEval`. -/
def onTick (st : BotState) (inp : TickInput) : BotState × Option Trade :=
  if st.paused then (st, none)
  else
    let st := { st with tickCount := st.tickCount + 1 }
    let now := inp.nowMs.fdiv 1000
    let currentWindowStart := now.fdiv 300 * 300
    let timeInWindow := now - currentWindowStart
    -- track window open price (first observation wins), cleanup old entries
    let wops :=
      if wopLookup st.windowOpenPrices currentWindowStart = none then
        ((currentWindowStart, inp.price) :: st.windowOpenPrices).filter
          (fun e => ¬e.1 < currentWindowStart - 3600)
      else st.windowOpenPrices
    let st := { st with windowOpenPrices := wops }
    let windowOpenPrice := (wopLookup wops currentWindowStart).getD inp.price
    let delta := jsAbs (inp.price - windowOpenPrice)
    let deltaPct := delta / windowOpenPrice * 100
    -- quick pre-check: skip if move too small
    if deltaPct < st.config.minDeltaPercent ∨ delta < st.config.minDeltaAbsolute then
      (st, none)
    else if currentWindowStart ∈ st.tradedWindows then (st, none)
    else if st.trades.any (fun t => t.result = TradeResult.pending) then (st, none)
    else if ((inp.nowMs - st.lastTradeTime : ℤ) : ℚ) < st.config.cooldownMs then
      (st, none)
    else if timeInWindow < 30 ∨ timeInWindow > 240 then (st, none)
    else onTickEval st inp windowOpenPrice currentWindowStart timeInWindow

/-- The `POST /resume` handler: `state.paused = false`. -/
def resumeHandler (st : BotState) : BotState :=
  { st with paused := false }

/-- The `POST /pause` handler: `state.paused = true`. -/
def pauseHandler (st : BotState) : BotState :=
  { st with paused := true }

/-- Bot state at the P&L floor (cumulative P&L -100 against the default
floor of -100), not yet paused. -/
def floorState : BotState :=
  { config := DEFAULT_CONFIG_V7, trades := [], totalPnL := -100, wins := 0,
    losses := 0, winStreak := 0, skips := 0, paused := false, lastTradeTime := 0,
    windowOpenPrices := [(0, 100000)], tradedWindows := [], lastSignal := none,
    tickCount := 0, checkCount := 0 }

/-- A tick whose $1 move fails the cheap delta pre-check. -/
def smallTick : TickInput :=
  { price := 100001, nowMs := 0, market := none }

/-- Bot state at the P&L floor whose next in-window tick passes every gate. -/
def demoState : BotState :=
  { config := DEFAULT_CONFIG_V7, trades := [], totalPnL := -100, wins := 0,
    losses := 0, winStreak := 0, skips := 0, paused := false,
    lastTradeTime := -1000000000, windowOpenPrices := [(0, 100000)],
    tradedWindows := [], lastSignal := none, tickCount := 0, checkCount := 0 }

/-- A gate-passing tick (large move, 100s into the window, live market). -/
def demoTick : TickInput :=
  { price := 100200, nowMs := 100000,
    market := some { upPrice := 0.30, downPrice := 0.65 } }

/-! ## Black-Scholes binary pricing and volatility (src/unnamed/part_000) and
Signal Engine v8 (src/dist/signal-engine.js).

This code uses `Math.exp`, `Math.log`, `Math.sqrt`, so it is modelled over
`ℝ` with the exact transcendental functions (hence noncomputable). -/

noncomputable section

open scoped Classical

/-- Function `normcdf(x)`: the Abramowitz-Stegun rational approximation of the
standard normal CDF, exactly as in src/unnamed/part_000 lines 17-32
(`Math.SQRT2` is `Real.sqrt 2`). -/
def normcdf (x : ℝ) : ℝ :=
  let a1 : ℝ := 0.254829592
  let a2 : ℝ := -0.284496736
  let a3 : ℝ := 1.421413741
  let a4 : ℝ := -1.453152027
  let a5 : ℝ := 1.061405429
  let p : ℝ := 0.3275911
  let sign : ℝ := if x < 0 then -1 else 1
  let x' := |x| / Real.sqrt 2
  let t := 1.0 / (1.0 + p * x')
  let y := 1.0 - (((((a5 * t + a4) * t) + a3) * t + a2) * t + a1) * t *
    Real.exp (-x' * x')
  0.5 * (1.0 + sign * y)

/-- Result record of `binaryOptionFairValue`. -/
structure BSPricing where
  fairUp : ℝ
  fairDown : ℝ
  d2 : ℝ
  impliedVol : ℝ
  timeRemaining : ℝ

/-- Function `binaryOptionFairValue(currentPrice, strikePrice, timeRemainingSeconds,
annualizedVol)` from src/unnamed/part_000 lines 50-79.  Note the function
performs no input validation: it is total. -/
def binaryOptionFairValue (currentPrice strikePrice timeRemainingSeconds
    annualizedVol : ℝ) : BSPricing :=
  let T := max (timeRemainingSeconds / 31557600) 1e-10
  let r : ℝ := 0
  let sigma := annualizedVol
  let sqrtT := Real.sqrt T
  let d2 := (Real.log (currentPrice / strikePrice) + (r - sigma * sigma / 2) * T) /
    (sigma * sqrtT)
  let fairUp := normcdf d2
  let fairDown := 1 - fairUp
  { fairUp := fairUp, fairDown := fairDown, d2 := d2,
    impliedVol := annualizedVol, timeRemaining := timeRemainingSeconds }

inductive FVError where
  | invalidInput
deriving DecidableEq

/-- Modelled from the spec: section 4.1's input-validation contract
("σ must be positive; if S, K ≤ 0, fail with an InvalidInput error"),
wrapped around the code's computation.  This definition follows the SPEC's
words, for comparison with the code's `binaryOptionFairValue` (which has no
validation); it is the refinement target of claim C3, not code of the
repository. -/
def specValidatedFairValue (S K ts sigma : ℝ) : Except FVError BSPricing :=
  if S ≤ 0 ∨ K ≤ 0 ∨ sigma ≤ 0 then Except.error FVError.invalidInput
  else Except.ok (binaryOptionFairValue S K ts sigma)

/-- Function `estimateVolatility(prices, intervalSeconds)` from src/unnamed/part_000
lines 88-108. -/
def estimateVolatility (prices : List ℝ) (intervalSeconds : ℝ) : ℝ :=
  if prices.length < 3 then 0.50
  else
    let returns := List.zipWith (fun next prev => Real.log (next / prev))
      (prices.drop 1) prices
    let mean := returns.sum / (returns.length : ℝ)
    let variance := (returns.map fun r => (r - mean) ^ 2).sum /
      ((returns.length : ℝ) - 1)
    let stdDev := Real.sqrt variance
    let periodsPerYear := 31557600 / intervalSeconds
    let annualizedVol := stdDev * Real.sqrt periodsPerYear
    max 0.20 (min annualizedVol 1.50)

/-! ### Signal Engine v8 (src/dist/signal-engine.js): Black-Scholes latency
arbitrage with Kelly sizing. -/

structure SignalConfigV8 where
  minDeltaPercent : ℝ
  minDeltaAbsolute : ℝ
  minEdgeCents : ℝ
  maxTokenPrice : ℝ
  fairValueBase : ℝ
  fairValueMultiplier : ℝ
  fairValueCap : ℝ
  maxPrice : ℝ
  positionSize : ℝ
  bankroll : ℝ
  kellyFraction : ℝ
  minPositionSize : ℝ
  dryRun : Bool
  cooldownMs : ℝ
  compoundFraction : ℝ
  maxPositionSize : ℝ
  pnlFloor : ℝ

def DEFAULT_CONFIG_V8 : SignalConfigV8 :=
  { minDeltaPercent := 0.06, minDeltaAbsolute := 40, minEdgeCents := 8,
    maxTokenPrice := 0.55, fairValueBase := 0.50, fairValueMultiplier := 1.5,
    fairValueCap := 0.75, maxPrice := 0.65, positionSize := 50, bankroll := 500,
    kellyFraction := 0.25, minPositionSize := 5, dryRun := false,
    cooldownMs := 90000, compoundFraction := 0.5, maxPositionSize := 200,
    pnlFloor := -100 }

/-- Signal record of v8; `kellySize` is attached only on the success return
(absent, i.e. `none`, on every skip). -/
structure SignalV8 where
  direction : Option Direction
  confidence : ℝ
  reasons : List (Reason ℝ)
  priceDelta : PriceDelta ℝ
  marketPrices : MarketPrices ℝ
  timeInWindow : ℝ
  timestamp : ℤ
  kellySize : Option ℝ

/-- Value `delta = currentPrice - windowOpenPrice` (v8). -/
def v8delta (windowOpenPrice currentPrice : ℝ) : ℝ :=
  currentPrice - windowOpenPrice

/-- Value `deltaPct = (delta / windowOpenPrice) * 100` (v8). -/
def v8deltaPct (windowOpenPrice currentPrice : ℝ) : ℝ :=
  v8delta windowOpenPrice currentPrice / windowOpenPrice * 100

/-- Value `timeScale = 1 + (1 - timeInWindow / 240)` (v8). -/
def v8timeScale (timeInWindow : ℝ) : ℝ :=
  1 + (1 - timeInWindow / 240)

/-- The v8 minimum-move rejection condition. -/
def v8moveFails (config : SignalConfigV8) (windowOpenPrice currentPrice
    timeInWindow : ℝ) : Prop :=
  |v8deltaPct windowOpenPrice currentPrice| <
      config.minDeltaPercent * v8timeScale timeInWindow ∨
    |v8delta windowOpenPrice currentPrice| <
      config.minDeltaAbsolute * v8timeScale timeInWindow

/-- Value `timeRemainingSeconds = Math.max(300 - timeInWindow, 1)` (v8). -/
def v8timeRemaining (timeInWindow : ℝ) : ℝ :=
  max (300 - timeInWindow) 1

/-- The Black-Scholes call of v8 (`annualizedVol` hardcoded to 0.50): strike
is the window open price. -/
def v8bs (windowOpenPrice currentPrice timeInWindow : ℝ) : BSPricing :=
  binaryOptionFairValue currentPrice windowOpenPrice (v8timeRemaining timeInWindow) 0.50

/-- v8 fair value: the BS probability of the move's direction. -/
def v8fairValue (windowOpenPrice currentPrice timeInWindow : ℝ) : ℝ :=
  if v8delta windowOpenPrice currentPrice > 0 then
    (v8bs windowOpenPrice currentPrice timeInWindow).fairUp
  else (v8bs windowOpenPrice currentPrice timeInWindow).fairDown

/-- v8 candidate direction from the sign of the delta. -/
def v8arbDirection (windowOpenPrice currentPrice : ℝ) : Direction :=
  if v8delta windowOpenPrice currentPrice > 0 then Direction.up else Direction.down

/-- Venue token price for the candidate direction (v8). -/
def v8tokenPrice (windowOpenPrice currentPrice marketUpPrice marketDownPrice : ℝ) : ℝ :=
  if v8arbDirection windowOpenPrice currentPrice = Direction.up then marketUpPrice
  else marketDownPrice

/-- Value `edge = fairValue - tokenPrice` (v8). -/
def v8edge (windowOpenPrice currentPrice marketUpPrice marketDownPrice
    timeInWindow : ℝ) : ℝ :=
  v8fairValue windowOpenPrice currentPrice timeInWindow -
    v8tokenPrice windowOpenPrice currentPrice marketUpPrice marketDownPrice

/-- Full Kelly fraction `F = (p - P) / (1 - P)` of v8 line 103. -/
def kellyFullOf (fairValue tokenPrice : ℝ) : ℝ :=
  (fairValue - tokenPrice) / (1 - tokenPrice)

/-- v8 line 104: the Kelly bet clamped to the configured band,
`Math.max(minPositionSize, Math.min(positionSize, bankroll * kellyFull *
kellyFraction))`. -/
def kellyBetOf (minPositionSize positionSize bankroll kellyFull kellyFraction : ℝ) : ℝ :=
  max minPositionSize (min positionSize (bankroll * kellyFull * kellyFraction))

/-- Lines 91-107 of v8 `generateSignal`, entered once the disagreement filter
did not return: optional override reason, the edge filter, and the success
return with confidence and Kelly size. -/
def v8AfterDisagreement (config : SignalConfigV8)
    (windowOpenPrice currentPrice marketUpPrice marketDownPrice timeInWindow : ℝ)
    (nowMs : ℤ) : SignalV8 :=
  let delta := v8delta windowOpenPrice currentPrice
  let absDelta := |delta|
  let pd : PriceDelta ℝ :=
    { absolute := delta, percent := v8deltaPct windowOpenPrice currentPrice,
      windowOpenPrice := windowOpenPrice, currentPrice := currentPrice }
  let bs := v8bs windowOpenPrice currentPrice timeInWindow
  let fairValue := v8fairValue windowOpenPrice currentPrice timeInWindow
  let tokenPrice := v8tokenPrice windowOpenPrice currentPrice marketUpPrice
    marketDownPrice
  let mp : MarketPrices ℝ :=
    { upPrice := marketUpPrice, downPrice := marketDownPrice,
      impliedProb := tokenPrice }
  let edge := v8edge windowOpenPrice currentPrice marketUpPrice marketDownPrice
    timeInWindow
  let r1 : List (Reason ℝ) :=
    [Reason.headerV7 currentPrice delta (v8deltaPct windowOpenPrice currentPrice)
        timeInWindow,
      Reason.marketLine marketUpPrice marketDownPrice,
      Reason.bsFairLine fairValue bs.d2 (v8timeRemaining timeInWindow) tokenPrice edge]
  let r2 := r1 ++
    (if tokenPrice < 0.50 ∧ absDelta ≥ 150 then [Reason.deltaOverride absDelta]
      else [])
  if edge < config.minEdgeCents / 100 then
    { direction := none, confidence := 0,
      reasons := r2 ++ [Reason.edgeTooSmall edge config.minEdgeCents],
      priceDelta := pd, marketPrices := mp, timeInWindow := timeInWindow,
      timestamp := nowMs, kellySize := none }
  else
    let kellyFull := kellyFullOf fairValue tokenPrice
    let kellyBet := kellyBetOf config.minPositionSize config.positionSize
      config.bankroll kellyFull config.kellyFraction
    { direction := some (v8arbDirection windowOpenPrice currentPrice),
      confidence := min 0.95 (0.6 + edge),
      reasons := r2 ++
        [Reason.arbFired (v8arbDirection windowOpenPrice currentPrice) absDelta
            tokenPrice,
          Reason.kellyLine kellyFull config.kellyFraction kellyBet],
      priceDelta := pd, marketPrices := mp, timeInWindow := timeInWindow,
      timestamp := nowMs, kellySize := some kellyBet }

/-- Function `generateSignal` of signal-engine v8 (Black-Scholes latency arbitrage). -/
def generateSignalV8 (config : SignalConfigV8)
    (windowOpenPrice currentPrice marketUpPrice marketDownPrice timeInWindow : ℝ)
    (nowMs : ℤ) : SignalV8 :=
  let delta := v8delta windowOpenPrice currentPrice
  let deltaPct := v8deltaPct windowOpenPrice currentPrice
  let absDelta := |delta|
  let pd : PriceDelta ℝ :=
    { absolute := delta, percent := deltaPct, windowOpenPrice := windowOpenPrice,
      currentPrice := currentPrice }
  if v8moveFails config windowOpenPrice currentPrice timeInWindow then
    { direction := none, confidence := 0,
      reasons := [Reason.headerV7 currentPrice delta deltaPct timeInWindow,
        Reason.moveTooSmall (config.minDeltaPercent * v8timeScale timeInWindow)
          (config.minDeltaAbsolute * v8timeScale timeInWindow) |deltaPct| absDelta],
      priceDelta := pd,
      marketPrices :=
        { upPrice := marketUpPrice, downPrice := marketDownPrice, impliedProb := 0 },
      timeInWindow := timeInWindow, timestamp := nowMs, kellySize := none }
  else
    let bs := v8bs windowOpenPrice currentPrice timeInWindow
    let fairValue := v8fairValue windowOpenPrice currentPrice timeInWindow
    let tokenPrice := v8tokenPrice windowOpenPrice currentPrice marketUpPrice
      marketDownPrice
    let mp : MarketPrices ℝ :=
      { upPrice := marketUpPrice, downPrice := marketDownPrice,
        impliedProb := tokenPrice }
    let edge := v8edge windowOpenPrice currentPrice marketUpPrice marketDownPrice
      timeInWindow
    let r1 : List (Reason ℝ) :=
      [Reason.headerV7 currentPrice delta deltaPct timeInWindow,
        Reason.marketLine marketUpPrice marketDownPrice,
        Reason.bsFairLine fairValue bs.d2 (v8timeRemaining timeInWindow) tokenPrice
          edge]
    if tokenPrice ≥ config.maxTokenPrice then
      { direction := none, confidence := 0,
        reasons := r1 ++ [Reason.alreadyPriced tokenPrice config.maxTokenPrice],
        priceDelta := pd, marketPrices := mp, timeInWindow := timeInWindow,
        timestamp := nowMs, kellySize := none }
    else if tokenPrice < 0.50 ∧ absDelta < 150 then
      { direction := none, confidence := 0,
        reasons := r1 ++ [Reason.marketDisagrees tokenPrice],
        priceDelta := pd, marketPrices := mp, timeInWindow := timeInWindow,
        timestamp := nowMs, kellySize := none }
    else
      v8AfterDisagreement config windowOpenPrice currentPrice marketUpPrice
        marketDownPrice timeInWindow nowMs

end

/-! ## Theorems for the claims -/

/-- Helper: the JS absolute value agrees with the mathematical one. -/
theorem jsAbs_eq_abs (q : ℚ) : jsAbs q = |q| := by
  unfold jsAbs
  rcases lt_or_le q 0 with h | h
  · rw [if_pos h, abs_of_neg h]
  · rw [if_neg (not_lt.2 h), abs_of_nonneg h]

/-- Helper: `zipWith` over two constant lists is a constant list. -/
theorem zipWith_replicate_eq {α : Type} (f : α → α → α) (a b : α) (m n : ℕ) :
    List.zipWith f (List.replicate m a) (List.replicate n b) =
      List.replicate (min m n) (f a b) := by
  induction m generalizing n with
  | zero => simp
  | succ m ih =>
    cases n with
    | zero => simp
    | succ n => simp [List.replicate_succ, ih, Nat.succ_min_succ]

/-- C5 (confirmed): the v8 Kelly bet
`max(minPositionSize, min(positionSize, bankroll * kellyFull * kellyFraction))`
with `kellyFull = (fairValue - tokenPrice) / (1 - tokenPrice)` always lies in
the configured band `[minPositionSize, positionSize]` whenever the floor does
not exceed the ceiling (and the floor is a genuine, nonnegative bet floor),
regardless of the sign or magnitude of the Kelly formula output; and at zero
edge (`fairValue = tokenPrice`) it equals the floor. -/
theorem c5_kellySizeClamped (fairValue tokenPrice bankroll kellyFraction
    minPositionSize positionSize : ℝ)
    (hband : minPositionSize ≤ positionSize) (hfloor : 0 ≤ minPositionSize)
    (_htp0 : 0 ≤ tokenPrice) (_htp1 : tokenPrice < 1) :
    (minPositionSize ≤ kellyBetOf minPositionSize positionSize bankroll
        (kellyFullOf fairValue tokenPrice) kellyFraction ∧
      kellyBetOf minPositionSize positionSize bankroll
        (kellyFullOf fairValue tokenPrice) kellyFraction ≤ positionSize) ∧
    kellyBetOf minPositionSize positionSize bankroll
      (kellyFullOf tokenPrice tokenPrice) kellyFraction = minPositionSize := by
  refine ⟨⟨le_max_left _ _, max_le hband (min_le_left _ _)⟩, ?_⟩
  have h0 : kellyFullOf tokenPrice tokenPrice = 0 := by
    unfold kellyFullOf
    rw [sub_self, zero_div]
  rw [kellyBetOf, h0, mul_zero, zero_mul, min_eq_right (hfloor.trans hband),
    max_eq_left hfloor]

/-- C5 witness: concrete defaults (bankroll 500, quarter Kelly, floor 5,
ceiling 50) at fair value 0.60 versus token price 0.40, and at zero edge. -/
theorem c5_kellySizeClamped_witness :
    ((5:ℝ) ≤ kellyBetOf 5 50 500 (kellyFullOf 0.6 0.4) 0.25 ∧
      kellyBetOf 5 50 500 (kellyFullOf 0.6 0.4) 0.25 ≤ 50) ∧
    kellyBetOf 5 50 500 (kellyFullOf 0.4 0.4) 0.25 = 5 :=
  c5_kellySizeClamped 0.6 0.4 500 0.25 5 50 (by norm_num) (by norm_num)
    (by norm_num) (by norm_num)

/-- C8 counterexample: the flat positive two-price list `[100, 100]` makes
`estimateVolatility` return the insufficient-data default 0.50, not the lower
clamp bound 0.20, refuting the claim for flat lists of fewer than 3 samples. -/
theorem c8_counterexample :
    estimateVolatility [100, 100] 60 = 0.50 ∧ (0.50:ℝ) ≠ 0.20 ∧ (0:ℝ) < 100 := by
  refine ⟨?_, by norm_num, by norm_num⟩
  unfold estimateVolatility
  rw [if_pos (by simp)]

/-- C8 (corrected): on every flat positive price series with at least 3
samples, `estimateVolatility` returns the lower clamp bound 0.20 (zero
realized variance clamped up, not propagated); and for every input whatsoever
the estimate lies in the band [0.20, 1.50]. -/
theorem c8_volatilityClamp (prices : List ℝ) (c : ℝ) (hc : 0 < c)
    (hflat : ∀ p ∈ prices, p = c) (hlen : 3 ≤ prices.length) :
    estimateVolatility prices 60 = 0.20 ∧
    ∀ (ps : List ℝ) (inter : ℝ), 0.20 ≤ estimateVolatility ps inter ∧
      estimateVolatility ps inter ≤ 1.50 := by
  constructor
  · obtain ⟨n, hn⟩ : ∃ n, prices = List.replicate n c :=
      ⟨prices.length, List.eq_replicate_length.2 hflat⟩
    subst hn
    rw [List.length_replicate] at hlen
    unfold estimateVolatility
    rw [if_neg (by simp; omega)]
    have hlog : Real.log (c / c) = 0 := by
      rw [div_self hc.ne', Real.log_one]
    have hzip : List.zipWith (fun next prev => Real.log (next / prev))
        ((List.replicate n c).drop 1) (List.replicate n c) =
        List.replicate (n - 1) (0:ℝ) := by
      rw [List.drop_replicate, zipWith_replicate_eq, hlog,
        min_eq_left (Nat.sub_le n 1)]
    rw [hzip]
    simp [Real.sqrt_zero]
    left
    norm_num
  · intro ps inter
    unfold estimateVolatility
    split_ifs
    · norm_num
    · exact ⟨le_max_left _ _, max_le (by norm_num) (min_le_right _ _)⟩

/-- C8 witness: the flat series `[1, 1, 1]` yields exactly the lower clamp
bound 0.20. -/
theorem c8_volatilityClamp_witness : estimateVolatility [1, 1, 1] 60 = 0.20 :=
  (c8_volatilityClamp [1, 1, 1] 1 (by norm_num) (by simp) (by simp)).1

/-- C3 counterexample: at the invalid input σ = -1 (with S = K = 1,
300 seconds... here a full year remaining), the spec-modelled validated
variant fails with InvalidInput, but the code's `binaryOptionFairValue`
does not fail: it returns a numeric record with d2 = 1/2 and
fairUp = normcdf(1/2). -/
theorem c3_counterexample :
    specValidatedFairValue 1 1 31557600 (-1) = Except.error FVError.invalidInput ∧
    (binaryOptionFairValue 1 1 31557600 (-1)).d2 = 1 / 2 ∧
    (binaryOptionFairValue 1 1 31557600 (-1)).fairUp = normcdf (1 / 2) := by
  have hT : max ((31557600:ℝ) / 31557600) 1e-10 = 1 := by norm_num
  have hd2 : (Real.log ((1:ℝ) / 1) + ((0:ℝ) - (-1) * (-1) / 2) *
      max ((31557600:ℝ) / 31557600) 1e-10) /
      ((-1) * Real.sqrt (max ((31557600:ℝ) / 31557600) 1e-10)) = 1 / 2 := by
    rw [hT, Real.sqrt_one]
    norm_num [Real.log_one]
  refine ⟨?_, ?_, ?_⟩
  · unfold specValidatedFairValue
    rw [if_pos]
    right; right; norm_num
  · show (Real.log ((1:ℝ) / 1) + ((0:ℝ) - (-1) * (-1) / 2) *
        max ((31557600:ℝ) / 31557600) 1e-10) /
        ((-1) * Real.sqrt (max ((31557600:ℝ) / 31557600) 1e-10)) = 1 / 2
    exact hd2
  · show normcdf ((Real.log ((1:ℝ) / 1) + ((0:ℝ) - (-1) * (-1) / 2) *
        max ((31557600:ℝ) / 31557600) 1e-10) /
        ((-1) * Real.sqrt (max ((31557600:ℝ) / 31557600) 1e-10))) = normcdf (1 / 2)
    rw [hd2]

/-- C3 (corrected): `binaryOptionFairValue` performs no input validation and
never fails: even on non-positive price, strike or volatility it is total and
returns the computed record (with `fairDown` the exact complement of
`fairUp`, and the inputs echoed in `impliedVol`/`timeRemaining`), rather than
propagating an InvalidInput error. -/
theorem c3_noValidation (S K ts sigma : ℝ)
    (_hinvalid : S ≤ 0 ∨ K ≤ 0 ∨ sigma ≤ 0) :
    (binaryOptionFairValue S K ts sigma).fairDown =
      1 - (binaryOptionFairValue S K ts sigma).fairUp ∧
    (binaryOptionFairValue S K ts sigma).impliedVol = sigma ∧
    (binaryOptionFairValue S K ts sigma).timeRemaining = ts :=
  ⟨rfl, rfl, rfl⟩

/-- C3 witness: the total-function behaviour at the invalid input σ = -1. -/
theorem c3_noValidation_witness :
    (binaryOptionFairValue 1 1 31557600 (-1)).fairDown =
      1 - (binaryOptionFairValue 1 1 31557600 (-1)).fairUp ∧
    (binaryOptionFairValue 1 1 31557600 (-1)).impliedVol = -1 ∧
    (binaryOptionFairValue 1 1 31557600 (-1)).timeRemaining = 31557600 :=
  c3_noValidation 1 1 31557600 (-1) (Or.inr (Or.inr (by norm_num)))

/-- C6 (confirmed): the time-scaled minimum-move filter of the v7 signal
engine.  If the absolute percent delta is below
`minDeltaPercent * (2 - timeInWindow/240)` or the absolute dollar delta is
below `minDeltaAbsolute * (2 - timeInWindow/240)`, `generateSignal` returns
direction = none with confidence 0 and a move-too-small reason entry. -/
theorem c6_minMoveFilter (config : SignalConfigV7)
    (wop cp mUp mDown t : ℚ) (nowMs : ℤ)
    (_hwop : 0 < wop) (_ht30 : 30 ≤ t) (_ht240 : t ≤ 240)
    (hsmall : |v7deltaPct wop cp| < config.minDeltaPercent * (2 - t / 240) ∨
      |v7delta wop cp| < config.minDeltaAbsolute * (2 - t / 240)) :
    (generateSignalV7 config wop cp mUp mDown t nowMs).direction = none ∧
    (generateSignalV7 config wop cp mUp mDown t nowMs).confidence = 0 ∧
    Reason.moveTooSmall (config.minDeltaPercent * timeScaleOf t)
        (config.minDeltaAbsolute * timeScaleOf t) |v7deltaPct wop cp| |v7delta wop cp|
      ∈ (generateSignalV7 config wop cp mUp mDown t nowMs).reasons := by
  have hscale : timeScaleOf t = 2 - t / 240 := by
    unfold timeScaleOf
    ring
  have hfail : v7moveFails config wop cp t := by
    unfold v7moveFails
    rw [hscale, jsAbs_eq_abs, jsAbs_eq_abs]
    exact hsmall
  unfold generateSignalV7
  rw [if_pos hfail]
  refine ⟨rfl, rfl, ?_⟩
  simp [jsAbs_eq_abs]

/-- C6 witness: scenario C, a $10 (0.01%) move at 30 seconds into the window
under the default config yields direction = none with confidence 0. -/
theorem c6_minMoveFilter_witness :
    (generateSignalV7 DEFAULT_CONFIG_V7 100000 100010 0.45 0.55 30 0).direction =
      none ∧
    (generateSignalV7 DEFAULT_CONFIG_V7 100000 100010 0.45 0.55 30 0).confidence =
      0 ∧
    Reason.moveTooSmall (DEFAULT_CONFIG_V7.minDeltaPercent * timeScaleOf 30)
        (DEFAULT_CONFIG_V7.minDeltaAbsolute * timeScaleOf 30)
        |v7deltaPct 100000 100010| |v7delta 100000 100010|
      ∈ (generateSignalV7 DEFAULT_CONFIG_V7 100000 100010 0.45 0.55 30 0).reasons :=
  c6_minMoveFilter DEFAULT_CONFIG_V7 100000 100010 0.45 0.55 30 0 (by norm_num)
    (by norm_num) (by norm_num)
    (by
      left
      have h1 : v7deltaPct 100000 100010 = 1 / 100 := by
        norm_num [v7deltaPct, v7delta]
      rw [h1, abs_of_pos (by norm_num)]
      norm_num [DEFAULT_CONFIG_V7])

/-- C10 (confirmed): for timeInWindow at least 480 the scaled minimum-move
thresholds are nonpositive, so the v7 minimum-move check passes every delta
(including a zero-dollar move) and `generateSignal` proceeds to the stage
after the filter; the filter only constrains real runs because `onTick`
separately gates evaluation to 30-240 seconds into the window (outside that
range it returns without evaluating: no trade and no new signal). -/
theorem c10_lateWindowVacuous (config : SignalConfigV7)
    (wop cp mUp mDown t : ℚ) (nowMs : ℤ) (st : BotState) (inp : TickInput)
    (hpct : 0 ≤ config.minDeltaPercent) (habs : 0 ≤ config.minDeltaAbsolute)
    (ht : 480 ≤ t)
    (hgate : timeInWindowOf inp.nowMs < 30 ∨ 240 < timeInWindowOf inp.nowMs) :
    ¬ v7moveFails config wop cp t ∧
    generateSignalV7 config wop cp mUp mDown t nowMs =
      v7AfterMinMove config wop cp mUp mDown t nowMs ∧
    (onTick st inp).2 = none ∧
    (onTick st inp).1.lastSignal = st.lastSignal := by
  have hscale : timeScaleOf t ≤ 0 := by
    unfold timeScaleOf
    linarith
  have hpass : ¬ v7moveFails config wop cp t := by
    unfold v7moveFails
    simp only [jsAbs_eq_abs]
    push_neg
    constructor
    · calc config.minDeltaPercent * timeScaleOf t ≤ 0 :=
          mul_nonpos_of_nonneg_of_nonpos hpct hscale
        _ ≤ |v7deltaPct wop cp| := abs_nonneg _
    · calc config.minDeltaAbsolute * timeScaleOf t ≤ 0 :=
          mul_nonpos_of_nonneg_of_nonpos habs hscale
        _ ≤ |v7delta wop cp| := abs_nonneg _
  refine ⟨hpass, ?_, ?_⟩
  · unfold generateSignalV7
    rw [if_neg hpass]
  · unfold timeInWindowOf at hgate
    unfold onTick
    dsimp only
    split_ifs <;> exact ⟨rfl, rfl⟩

/-- C4 counterexample: a v5 signal whose direction was nulled by the
`minConfidence` gate keeps its nonzero confidence.  With an empty candle
list, window open 100000, price 100200, market UP at $0.30 and a config
whose `minConfidence` is 0.95, the arb strategy computes confidence 0.9, the
gate nulls the direction, and the returned None-signal carries
confidence 0.9, not 0. -/
theorem c4_counterexample :
    (generateSignalV5 [] (some 100000) 100200 (some 0.30) (some 0.65)
      { DEFAULT_CONFIG_V5 with minConfidence := 0.95 } 0).direction = none ∧
    (generateSignalV5 [] (some 100000) 100200 (some 0.30) (some 0.65)
      { DEFAULT_CONFIG_V5 with minConfidence := 0.95 } 0).confidence = 0.9 ∧
    (0.9 : ℚ) ≠ 0 := by
  have harb : v5ArbStage (some 100000) 100200 (some 0.30) (some 0.65)
      { DEFAULT_CONFIG_V5 with minConfidence := 0.95 } 0 =
      (some Direction.up, some StrategyV5.latencyArb, 0.9,
        [Reason.windowDelta 200 0.2,
          Reason.latencyArbV5 200 0, Reason.tokenVsFair 0.30 0.7 0.4 0.5],
        some { absolute := 200, percent := 0.2, windowOpenPrice := 100000,
               currentPrice := 100200 }) := by
    norm_num [v5ArbStage, jsAbs, DEFAULT_CONFIG_V5, min_def, max_def, Int.zero_fdiv]
  refine ⟨?_, ?_, by norm_num⟩ <;>
  · simp only [generateSignalV5, harb]
    norm_num [DEFAULT_CONFIG_V5, min_def, max_def]

/-- C4 (corrected): in the v7 engine every signal with direction = none does
carry confidence 0 (v7 signals attach no size field at all), and in the v8
engine every such signal carries confidence 0 and no Kelly size
(`kellySize = none`); but in the v5 engine the invariant fails — the
`minConfidence` gate nulls the direction while keeping the computed
confidence (see the counterexample). -/
theorem c4_noneSignalZero :
    (∀ (config : SignalConfigV7) (wop cp mUp mDown t : ℚ) (nowMs : ℤ),
      (generateSignalV7 config wop cp mUp mDown t nowMs).direction ≠ none ∨
      (generateSignalV7 config wop cp mUp mDown t nowMs).confidence = 0) ∧
    (∀ (config : SignalConfigV8) (wop cp mUp mDown t : ℝ) (nowMs : ℤ),
      (generateSignalV8 config wop cp mUp mDown t nowMs).direction ≠ none ∨
      ((generateSignalV8 config wop cp mUp mDown t nowMs).confidence = 0 ∧
        (generateSignalV8 config wop cp mUp mDown t nowMs).kellySize = none)) := by
  constructor
  · intro config wop cp mUp mDown t nowMs
    unfold generateSignalV7 v7AfterMinMove
    dsimp only
    split_ifs <;> simp
  · intro config wop cp mUp mDown t nowMs
    unfold generateSignalV8 v8AfterDisagreement
    dsimp only
    split_ifs <;> simp

/-- C9 (confirmed): whenever the v7 or v8 engine emits a trade
(direction ≠ none), the returned confidence is exactly
`min(0.95, 0.6 + edge)`; that formula is monotone non-decreasing in the edge
and never exceeds 0.95. -/
theorem c9_confidenceFormula :
    (∀ (config : SignalConfigV7) (wop cp mUp mDown t : ℚ) (nowMs : ℤ),
      ((generateSignalV7 config wop cp mUp mDown t nowMs).direction = none ∧
        (generateSignalV7 config wop cp mUp mDown t nowMs).confidence = 0) ∨
      (generateSignalV7 config wop cp mUp mDown t nowMs).confidence =
        min 0.95 (0.6 + v7edge config wop cp mUp mDown t)) ∧
    (∀ (config : SignalConfigV8) (wop cp mUp mDown t : ℝ) (nowMs : ℤ),
      ((generateSignalV8 config wop cp mUp mDown t nowMs).direction = none ∧
        (generateSignalV8 config wop cp mUp mDown t nowMs).confidence = 0) ∨
      (generateSignalV8 config wop cp mUp mDown t nowMs).confidence =
        min 0.95 (0.6 + v8edge wop cp mUp mDown t)) ∧
    Monotone (fun e : ℝ => min 0.95 (0.6 + e)) ∧
    (∀ e : ℝ, min 0.95 (0.6 + e) ≤ 0.95) := by
  refine ⟨?_, ?_, ?_, fun e => min_le_left _ _⟩
  · intro config wop cp mUp mDown t nowMs
    unfold generateSignalV7 v7AfterMinMove
    dsimp only
    split_ifs <;> simp
  · intro config wop cp mUp mDown t nowMs
    unfold generateSignalV8 v8AfterDisagreement
    dsimp only
    split_ifs <;> simp
  · exact monotone_const.min (monotone_id.const_add 0.6)



/-- C1 counterexample: with cumulative P&L exactly at the floor, a tick whose
move fails the delta pre-check is processed without placing a trade but also
WITHOUT flipping the paused flag — the circuit-breaker check sits after the
gates and the signal, so "any input flips the flag" is false. -/
theorem c1_counterexample :
    floorState.totalPnL ≤ floorState.config.pnlFloor.getD (-100) ∧
    floorState.paused = false ∧
    (onTick floorState smallTick).2 = none ∧
    (onTick floorState smallTick).1.paused = false := by
  refine ⟨by norm_num [floorState, DEFAULT_CONFIG_V7], rfl, ?_, ?_⟩ <;>
  · norm_num [onTick, floorState, smallTick, wopLookup, jsAbs, DEFAULT_CONFIG_V7,
      List.find?, Int.zero_fdiv]

/-- Helper for C1: the evaluation stage places no trade while cumulative P&L
is at or below the configured floor (the circuit-breaker return precedes the
trade construction). -/
theorem onTickEval_noTrade (st : BotState) (inp : TickInput) (wop : ℚ)
    (cws t : ℤ) (h : st.totalPnL ≤ st.config.pnlFloor.getD (-100)) :
    (onTickEval st inp wop cws t).2 = none := by
  unfold onTickEval
  dsimp only
  split
  · rfl
  · split
    · rfl
    · -- `split_ifs` discharges the breaker condition with `h` itself, so the
      -- trade branch never arises
      split_ifs <;> rfl



/-- C1 (corrected): while cumulative P&L is at or below the configured floor,
`onTick` never places a trade; the paused flag is monotone under `onTick`
(once true it stays true until the explicit operator `/resume` action, which
alone clears it); and when an evaluation passes every gate and produces a
directional signal with P&L at the floor, the breaker does flip the flag and
suppresses the trade (demonstrated on a concrete gate-passing state).  What
the original claim overstates is only that EVERY tick at the floor flips the
flag: ticks rejected by the earlier gates return without reaching the
breaker (see the counterexample). -/
theorem c1_circuitBreaker (st : BotState) (inp : TickInput)
    (hfloor : st.totalPnL ≤ st.config.pnlFloor.getD (-100)) :
    (onTick st inp).2 = none ∧
    (∀ (st' : BotState) (inp' : TickInput),
      st'.paused ≤ (onTick st' inp').1.paused) ∧
    (∀ st' : BotState, (resumeHandler st').paused = false) ∧
    (onTick demoState demoTick).1.paused = true ∧
    (onTick demoState demoTick).2 = none := by
  refine ⟨?_, ?_, fun st' => rfl, ?_⟩
  · unfold onTick
    dsimp only
    split_ifs <;> first | rfl | exact onTickEval_noTrade _ _ _ _ _ hfloor
  · intro st' inp'
    cases hb : st'.paused with
    | false => exact Bool.false_le _
    | true =>
      unfold onTick
      rw [hb]
      simp [hb]
  · constructor <;>
    · norm_num [onTick, onTickEval, demoState, demoTick, wopLookup, jsAbs,
        DEFAULT_CONFIG_V7, List.find?,
        generateSignalV7, v7AfterMinMove, v7moveFails, v7delta, v7deltaPct,
        v7fairValue, v7edge, v7tokenPrice, timeScaleOf, timeWeightOf,
        arbDirectionOf, min_def, max_def,
        show ((100000:ℤ).fdiv 1000) = 100 from by decide,
        show ((100:ℤ).fdiv 300) = 0 from by decide]

/-- C1 witness: the breaker theorem applied at the concrete floor state and
the small tick. -/
theorem c1_circuitBreaker_witness :
    (onTick floorState smallTick).2 = none ∧
    (∀ (st' : BotState) (inp' : TickInput),
      st'.paused ≤ (onTick st' inp').1.paused) ∧
    (∀ st' : BotState, (resumeHandler st').paused = false) ∧
    (onTick demoState demoTick).1.paused = true ∧
    (onTick demoState demoTick).2 = none :=
  c1_circuitBreaker floorState smallTick
    (by norm_num [floorState, DEFAULT_CONFIG_V7])

/-- C10 witness: at 480 seconds a zero-dollar move passes the minimum-move
check under the default config, and a tick at 0 seconds into its window is
gated out by the caller without evaluation. -/
theorem c10_lateWindowVacuous_witness :
    ¬ v7moveFails DEFAULT_CONFIG_V7 100000 100000 480 ∧
    generateSignalV7 DEFAULT_CONFIG_V7 100000 100000 0.5 0.5 480 0 =
      v7AfterMinMove DEFAULT_CONFIG_V7 100000 100000 0.5 0.5 480 0 ∧
    (onTick ⟨DEFAULT_CONFIG_V7, [], 0, 0, 0, 0, 0, false, 0, [], [], none, 0, 0⟩
      ⟨100000, 0, none⟩).2 = none ∧
    (onTick ⟨DEFAULT_CONFIG_V7, [], 0, 0, 0, 0, 0, false, 0, [], [], none, 0, 0⟩
      ⟨100000, 0, none⟩).1.lastSignal =
      (⟨DEFAULT_CONFIG_V7, [], 0, 0, 0, 0, 0, false, 0, [], [], none, 0, 0⟩ :
        BotState).lastSignal :=
  c10_lateWindowVacuous DEFAULT_CONFIG_V7 100000 100000 0.5 0.5 480 0
    ⟨DEFAULT_CONFIG_V7, [], 0, 0, 0, 0, 0, false, 0, [], [], none, 0, 0⟩
    ⟨100000, 0, none⟩
    (by norm_num [DEFAULT_CONFIG_V7]) (by norm_num [DEFAULT_CONFIG_V7])
    (by norm_num) (by left; decide)

/-- C7 (confirmed): the v8 market-disagreement override rule.  Once the
minimum-move and already-priced-in filters have passed, a venue quote below
$0.50 for the candidate direction with an absolute delta below $150 returns
direction = none (with confidence 0 and a market-disagrees reason); with the
delta at or above $150 the evaluation instead proceeds past this filter into
the post-disagreement stage (override). -/
theorem c7_marketDisagreement (config : SignalConfigV8)
    (wop cp mUp mDown t : ℝ) (nowMs : ℤ)
    (hmove : ¬ v8moveFails config wop cp t)
    (hpriced : v8tokenPrice wop cp mUp mDown < config.maxTokenPrice)
    (hdis : v8tokenPrice wop cp mUp mDown < 0.50) :
    (|v8delta wop cp| < 150 →
      (generateSignalV8 config wop cp mUp mDown t nowMs).direction = none ∧
      (generateSignalV8 config wop cp mUp mDown t nowMs).confidence = 0 ∧
      Reason.marketDisagrees (v8tokenPrice wop cp mUp mDown) ∈
        (generateSignalV8 config wop cp mUp mDown t nowMs).reasons) ∧
    (150 ≤ |v8delta wop cp| →
      generateSignalV8 config wop cp mUp mDown t nowMs =
        v8AfterDisagreement config wop cp mUp mDown t nowMs) := by
  unfold generateSignalV8
  dsimp only
  rw [if_neg hmove, if_neg (not_le.2 hpriced)]
  constructor
  · intro h150
    rw [if_pos ⟨hdis, h150⟩]
    exact ⟨rfl, rfl, by simp⟩
  · intro h150
    rw [if_neg (fun hc => absurd hc.2 (not_lt.2 h150))]

/-- C7 witness: window open $100000, price $100100 ($100 delta, 200s in),
market UP quoted at $0.40 (< $0.50 and the delta below the $150 override):
the v8 engine returns None with a market-disagrees reason. -/
theorem c7_marketDisagreement_witness :
    (generateSignalV8 DEFAULT_CONFIG_V8 100000 100100 0.40 0.65 200 0).direction =
      none ∧
    (generateSignalV8 DEFAULT_CONFIG_V8 100000 100100 0.40 0.65 200 0).confidence =
      0 ∧
    Reason.marketDisagrees (v8tokenPrice 100000 100100 0.40 0.65) ∈
      (generateSignalV8 DEFAULT_CONFIG_V8 100000 100100 0.40 0.65 200 0).reasons :=
  (c7_marketDisagreement DEFAULT_CONFIG_V8 100000 100100 0.40 0.65 200 0
    (by
      unfold v8moveFails
      push_neg
      constructor
      · rw [show v8deltaPct (100000:ℝ) 100100 = 1 / 10 from by
            norm_num [v8deltaPct, v8delta],
          abs_of_pos (by norm_num)]
        norm_num [DEFAULT_CONFIG_V8, v8timeScale]
      · rw [show v8delta (100000:ℝ) 100100 = 100 from by norm_num [v8delta],
          abs_of_pos (by norm_num)]
        norm_num [DEFAULT_CONFIG_V8, v8timeScale])
    (by norm_num [v8tokenPrice, v8arbDirection, v8delta, DEFAULT_CONFIG_V8])
    (by norm_num [v8tokenPrice, v8arbDirection, v8delta])).1
    (by
      rw [show v8delta (100000:ℝ) 100100 = 100 from by norm_num [v8delta],
        abs_of_pos (by norm_num)]
      norm_num)

/-- C2 (corrected): at the money (S = K) the model's d2 reduces to
`-(sigma * sqrt(T)) / 2` — the Black-Scholes drift term `-sigma^2/2 * T` does
not vanish — so `fairUp = normcdf(-(sigma * sqrt(T)) / 2)`, which is not
exactly 0.5 in general (see the counterexample). -/
theorem c2_atMoneyFairValue (S sigma ts : ℝ) (hS : 0 < S) (_hsigma : 0 < sigma) :
    (binaryOptionFairValue S S ts sigma).fairUp =
      normcdf (-(sigma * Real.sqrt (max (ts / 31557600) 1e-10)) / 2) := by
  unfold binaryOptionFairValue
  dsimp only
  congr 1
  have hT : (0:ℝ) < max (ts / 31557600) 1e-10 := lt_max_of_lt_right (by norm_num)
  have hsq : Real.sqrt (max (ts / 31557600) 1e-10) *
      Real.sqrt (max (ts / 31557600) 1e-10) = max (ts / 31557600) 1e-10 :=
    Real.mul_self_sqrt hT.le
  have hsqrt : (0:ℝ) < Real.sqrt (max (ts / 31557600) 1e-10) := Real.sqrt_pos.2 hT
  rw [div_self hS.ne', Real.log_one]
  rw [div_eq_div_iff (by positivity) (by norm_num : (2:ℝ) ≠ 0)]
  linear_combination (sigma * sigma) * hsq

/-- C2 witness: at S = K = 1, σ = 1 and one year remaining
(T = 1, √T = 1), the at-the-money fair value is `normcdf(-1/2)`. -/
theorem c2_atMoneyFairValue_witness :
    (binaryOptionFairValue 1 1 31557600 1).fairUp = normcdf (-(1:ℝ) / 2) := by
  have h := c2_atMoneyFairValue 1 1 31557600 (by norm_num) (by norm_num)
  have hT : max ((31557600:ℝ) / 31557600) 1e-10 = 1 := by norm_num
  rw [h, hT, Real.sqrt_one, mul_one]

/-- C2 counterexample: at the in-domain input S = K = 1, σ = 2√2 > 0 and a
full year remaining (so T = 1 and d2 = -√2), the code's at-the-money fair
value is `0.5 * poly(t) * exp(-1)` with `poly(t) < 1 < e`, hence NOT exactly
0.5: the claimed at-the-money symmetry fails on the code. -/
theorem c2_counterexample :
    (0:ℝ) < 2 * Real.sqrt 2 ∧ (0:ℝ) < 31557600 ∧ (0:ℝ) < 1 ∧
    (binaryOptionFairValue 1 1 31557600 (2 * Real.sqrt 2)).fairUp ≠ 1 / 2 := by
  have h2 : (0:ℝ) < Real.sqrt 2 := Real.sqrt_pos.2 (by norm_num)
  have hmul : Real.sqrt 2 * Real.sqrt 2 = 2 := Real.mul_self_sqrt (by norm_num)
  refine ⟨by positivity, by norm_num, by norm_num, ?_⟩
  have hT : max ((31557600:ℝ) / 31557600) 1e-10 = 1 := by norm_num
  have harg : (Real.log ((1:ℝ) / 1) +
      (0 - 2 * Real.sqrt 2 * (2 * Real.sqrt 2) / 2) *
        max ((31557600:ℝ) / 31557600) 1e-10) /
      (2 * Real.sqrt 2 * Real.sqrt (max ((31557600:ℝ) / 31557600) 1e-10)) =
      -Real.sqrt 2 := by
    rw [show ((1:ℝ) / 1) = 1 from by norm_num, Real.log_one, hT, Real.sqrt_one,
      mul_one, mul_one]
    rw [div_eq_iff (by positivity)]
    ring
  unfold binaryOptionFairValue
  dsimp only
  rw [harg]
  unfold normcdf
  dsimp only
  rw [if_pos (by linarith : -Real.sqrt 2 < 0)]
  rw [abs_of_neg (by linarith : -Real.sqrt 2 < 0), neg_neg, div_self h2.ne']
  intro heq
  have hE1 : Real.exp (-1) < 1 := Real.exp_lt_one_iff.2 (by norm_num)
  have hE0 : (0:ℝ) < Real.exp (-1) := Real.exp_pos _
  norm_num at heq
  linarith [hE1, hE0]
